import Mathlib

/-!
Shallow embedding of the `reqwest-response-ext` crate: a deferred-interpretation
wrapper around an HTTP response. `TypedResponse` captures the raw body bytes and
a success/failure disposition derived from the HTTP status code; the decode
methods (`bytes`, `text`, `into_json`, `into_result`) interpret the captured
state lazily. Both the asynchronous variant (src/lib.rs) and the blocking
variant (src/blocking.rs) are embedded; external collaborators (reqwest,
serde_json, the Rust standard library) are modelled by explicit data and
function parameters.
-/

/-- Model of a `serde_json::Error` deserialization error: it carries the
human-readable description produced by its Display implementation, which is
what `e.to_string()` yields in the source. -/
structure JsonError where
  msg : String
deriving DecidableEq, Repr

/-- Model of `serde_json::Value`, the generic JSON structured value. Numbers
are modelled as integers, which suffices for the behaviours under study. -/
inductive JsonValue : Type
  | null : JsonValue
  | bool (b : Bool) : JsonValue
  | num (n : Int) : JsonValue
  | str (s : String) : JsonValue
  | arr (xs : List JsonValue) : JsonValue
  | obj (fields : List (String × JsonValue)) : JsonValue

/-- Model of a transport-level `reqwest::Error`: opaque to this crate, carries
a description only. -/
structure TransportError where
  msg : String
deriving DecidableEq, Repr

/-- The two-variant disposition tag. The source stores it as
`result : Result<PhantomData<T>, PhantomData<E>>`; both `PhantomData` payloads
are zero-sized, so the runtime content is exactly this two-variant tag. -/
inductive Disposition : Type
  | success : Disposition
  | failure : Disposition
deriving DecidableEq, Repr

/-- Embedding of `http::StatusCode::is_success`: the 2xx range. -/
def is_success (status : Nat) : Bool :=
  200 ≤ status && status < 300

/-- Embedding of `http::StatusCode::is_server_error`: the 5xx range. -/
def is_server_error (status : Nat) : Bool :=
  500 ≤ status && status < 600

/-- Model of the collaborator's response handle (`reqwest::Response`, and
`reqwest::blocking::Response` for the blocking variant) as this crate observes
it: the HTTP status code, the outcome of the single body retrieval
(`Response::bytes`, a transport error or the raw bytes), and the outcome of the
status-escalation check (`Response::error_for_status_ref`, which can be invoked
on a reference without consuming the response). -/
structure Response where
  status : Nat
  bytes : Except TransportError (List Nat)
  error_for_status_ref : Except TransportError Unit

/-- Embedding of `TypedResponse<T, E>` of src/lib.rs: raw body bytes plus the disposition
tag. The `T`/`E` parameters are phantom (never stored), so they do not appear
in the embedded data; they parameterize `into_result` below. -/
structure TypedResponse where
  body : List Nat
  result : Disposition
deriving DecidableEq, Repr

/-- Embedding of `TypedResponse::try_from_response` of src/lib.rs. The single `await` point
of the source (body retrieval) is modelled by the `bytes` field of the response
handle, so the embedded operation is a pure function. `?` is modelled as
propagation of the `Except.error` branch. -/
def TypedResponse.try_from_response (response : Response) :
    Except TransportError TypedResponse :=
  let result := match is_success response.status with
    | false => Disposition.failure
    | true => Disposition.success
  -- Bail early on server error: `response.error_for_status_ref()?`
  let escalation : Except TransportError Unit :=
    if is_server_error response.status then response.error_for_status_ref
    else Except.ok ()
  match escalation with
  | Except.error e => Except.error e
  | Except.ok _ =>
    match response.bytes with
    | Except.error e => Except.error e
    | Except.ok body => Except.ok ⟨body, result⟩

/-- Embedding of `TypedResponse::bytes` of src/lib.rs: the raw body, no failure mode. -/
def TypedResponse.bytes (self : TypedResponse) : List Nat :=
  self.body

/-- Embedding of `TypedResponse::into_json` of src/lib.rs. `from_slice` is the collaborator
`serde_json::from_slice::<Value>`, supplied as a parameter. The closure
`json_err = |e| json! { e.to_string() }` builds a JSON string (the `json!`
invocation braces are macro delimiters, not an object literal), and the `?`
operator early-returns the `Err` variant of the function, so a parse failure
always lands in the `Err` channel. -/
def TypedResponse.into_json (from_slice : List Nat → Except JsonError JsonValue)
    (self : TypedResponse) : Except JsonValue JsonValue :=
  let json_err : JsonError → JsonValue := fun e => JsonValue.str e.msg
  match self.result with
  | Disposition.success =>
    match from_slice self.body with
    | Except.ok v => Except.ok v
    | Except.error e => Except.error (json_err e)
  | Disposition.failure =>
    match from_slice self.body with
    | Except.ok v => Except.error v
    | Except.error e => Except.error (json_err e)

/-- Embedding of `TypedResponse::into_result` of src/lib.rs. `from_slice_t` and
`from_slice_e` are the collaborator `serde_json::from_slice` at the caller's
types `T` and `E`; `e_from` is the `From<serde_json::Error>` conversion
required of `E`. The `?` operator converts a deserialization error through
`e_from` and early-returns it in the `Err` channel, on both paths. -/
def TypedResponse.into_result {T E : Type}
    (from_slice_t : List Nat → Except JsonError T)
    (from_slice_e : List Nat → Except JsonError E)
    (e_from : JsonError → E)
    (self : TypedResponse) : Except E T :=
  match self.result with
  | Disposition.success =>
    match from_slice_t self.body with
    | Except.ok v => Except.ok v
    | Except.error e => Except.error (e_from e)
  | Disposition.failure =>
    match from_slice_e self.body with
    | Except.ok v => Except.error v
    | Except.error e => Except.error (e_from e)

/-- The Unicode replacement character U+FFFD. -/
def replacement_char : Char :=
  Char.ofNat 0xFFFD

/-- A UTF-8 continuation byte: 0x80 to 0xBF. -/
def is_cont (b : Nat) : Bool :=
  0x80 ≤ b && b ≤ 0xBF

/-- Allowed second byte of a three-byte UTF-8 sequence with lead byte `b`:
0xE0 restricts it to 0xA0..0xBF (no overlong forms), 0xED to 0x80..0x9F
(no surrogates), the other leads take any continuation byte. -/
def cont3 (b c : Nat) : Bool :=
  if b = 0xE0 then 0xA0 ≤ c && c ≤ 0xBF
  else if b = 0xED then 0x80 ≤ c && c ≤ 0x9F
  else is_cont c

/-- Allowed second byte of a four-byte UTF-8 sequence with lead byte `b`:
0xF0 restricts it to 0x90..0xBF (no overlong forms), 0xF4 to 0x80..0x8F
(nothing above U+10FFFF), the other leads take any continuation byte. -/
def cont4 (b c : Nat) : Bool :=
  if b = 0xF0 then 0x90 ≤ c && c ≤ 0xBF
  else if b = 0xF4 then 0x80 ≤ c && c ≤ 0x8F
  else is_cont c

/-- One step of UTF-8 decoding, per the RFC 3629 well-formed byte sequence
table: given the lead byte `b` and the remaining bytes `rest`, return the
decoded character together with the number of bytes consumed from `rest`
(`none` means the sequence starting at `b` is ill-formed; the count is then
the length of its maximal valid subpart minus one, the bytes to skip before
resuming, per the substitution-of-maximal-subparts rule that the Rust standard
library implements in `String::from_utf8_lossy`). -/
def utf8_step (b : Nat) (rest : List Nat) : Option Char × Nat :=
  if b ≤ 0x7F then
    (some (Char.ofNat b), 0)
  else if 0xC2 ≤ b && b ≤ 0xDF then
    match rest with
    | c :: _ =>
      if is_cont c then (some (Char.ofNat ((b - 0xC0) * 64 + (c - 0x80))), 1)
      else (none, 0)
    | [] => (none, 0)
  else if 0xE0 ≤ b && b ≤ 0xEF then
    match rest with
    | c :: d :: _ =>
      if cont3 b c then
        if is_cont d then
          (some (Char.ofNat ((b - 0xE0) * 4096 + (c - 0x80) * 64 + (d - 0x80))), 2)
        else (none, 1)
      else (none, 0)
    | [c] => if cont3 b c then (none, 1) else (none, 0)
    | [] => (none, 0)
  else if 0xF0 ≤ b && b ≤ 0xF4 then
    match rest with
    | c :: d :: e :: _ =>
      if cont4 b c then
        if is_cont d then
          if is_cont e then
            (some (Char.ofNat ((b - 0xF0) * 262144 + (c - 0x80) * 4096 +
              (d - 0x80) * 64 + (e - 0x80))), 3)
          else (none, 2)
        else (none, 1)
      else (none, 0)
    | [c, d] =>
      if cont4 b c then (if is_cont d then (none, 2) else (none, 1))
      else (none, 0)
    | [c] => if cont4 b c then (none, 1) else (none, 0)
    | [] => (none, 0)
  else
    (none, 0)

/-- Model of the character stream produced by the standard library's
`String::from_utf8_lossy` (used by `TypedResponse::text`): each well-formed
UTF-8 sequence decodes to its scalar value, and each maximal invalid subpart
is replaced by a single U+FFFD. -/
def utf8_lossy_chars : List Nat → List Char
  | [] => []
  | b :: rest =>
    match utf8_step b rest with
    | (some ch, n) => ch :: utf8_lossy_chars (rest.drop n)
    | (none, n) => replacement_char :: utf8_lossy_chars (rest.drop n)
termination_by l => l.length
decreasing_by all_goals (simp_wf; omega)

/-- Model of `String::from_utf8_lossy` as a whole-string function. -/
def from_utf8_lossy (l : List Nat) : String :=
  String.mk (utf8_lossy_chars l)

/-- RFC 3629 well-formedness of a UTF-8 byte sequence: the condition under
which the byte sequence is valid UTF-8 (every position starts a well-formed
sequence), i.e. under which `String::from_utf8` succeeds and
`String::from_utf8_lossy` performs no substitution. -/
def utf8_valid : List Nat → Bool
  | [] => true
  | b :: rest =>
    match utf8_step b rest with
    | (some _, n) => utf8_valid (rest.drop n)
    | (none, _) => false
termination_by l => l.length
decreasing_by all_goals (simp_wf; omega)

/-- Embedding of `TypedResponse::text` of src/lib.rs: lossy UTF-8 decoding of the raw
body (`String::from_utf8_lossy(&self.body)`). -/
def TypedResponse.text (self : TypedResponse) : String :=
  from_utf8_lossy self.body

namespace blocking

/-- Embedding of `TypedResponse<T, E>` of src/blocking.rs: the blocking variant re-declares
the same structure (raw body bytes plus the disposition tag). -/
structure TypedResponse where
  body : List Nat
  result : Disposition
deriving DecidableEq, Repr

/-- Embedding of `TypedResponse::try_from_response` of src/blocking.rs, the synchronous
capture operation over `reqwest::blocking::Response`: body retrieval blocks
instead of suspending, which the embedding renders identically through the
`bytes` field of the response handle. -/
def TypedResponse.try_from_response (response : Response) :
    Except TransportError TypedResponse :=
  let result := match is_success response.status with
    | false => Disposition.failure
    | true => Disposition.success
  -- Bail early on server error: `response.error_for_status_ref()?`
  let escalation : Except TransportError Unit :=
    if is_server_error response.status then response.error_for_status_ref
    else Except.ok ()
  match escalation with
  | Except.error e => Except.error e
  | Except.ok _ =>
    match response.bytes with
    | Except.error e => Except.error e
    | Except.ok body => Except.ok ⟨body, result⟩

/-- Embedding of `TypedResponse::bytes` of src/blocking.rs. -/
def TypedResponse.bytes (self : TypedResponse) : List Nat :=
  self.body

/-- Embedding of `TypedResponse::text` of src/blocking.rs. -/
def TypedResponse.text (self : TypedResponse) : String :=
  from_utf8_lossy self.body

/-- Embedding of `TypedResponse::into_json` of src/blocking.rs. -/
def TypedResponse.into_json (from_slice : List Nat → Except JsonError JsonValue)
    (self : TypedResponse) : Except JsonValue JsonValue :=
  let json_err : JsonError → JsonValue := fun e => JsonValue.str e.msg
  match self.result with
  | Disposition.success =>
    match from_slice self.body with
    | Except.ok v => Except.ok v
    | Except.error e => Except.error (json_err e)
  | Disposition.failure =>
    match from_slice self.body with
    | Except.ok v => Except.error v
    | Except.error e => Except.error (json_err e)

/-- Embedding of `TypedResponse::into_result` of src/blocking.rs. -/
def TypedResponse.into_result {T E : Type}
    (from_slice_t : List Nat → Except JsonError T)
    (from_slice_e : List Nat → Except JsonError E)
    (e_from : JsonError → E)
    (self : TypedResponse) : Except E T :=
  match self.result with
  | Disposition.success =>
    match from_slice_t self.body with
    | Except.ok v => Except.ok v
    | Except.error e => Except.error (e_from e)
  | Disposition.failure =>
    match from_slice_e self.body with
    | Except.ok v => Except.error v
    | Except.error e => Except.error (e_from e)

end blocking

/-- The evident correspondence between the blocking and the asynchronous
captured-response records, which have field-for-field identical content. -/
def blockingToAsync (self : blocking.TypedResponse) : TypedResponse :=
  ⟨self.body, self.result⟩

/-- The raw body bytes of the ASCII string "not json", the invalid-JSON body
named by the specification. -/
def not_json_body : List Nat :=
  [0x6E, 0x6F, 0x74, 0x20, 0x6A, 0x73, 0x6F, 0x6E]

/-- Outcome of the collaborator `serde_json::from_slice::<Value>` on
`not_json_body`: serde_json rejects it (the leading byte starts the keyword
`null` but the input is not a JSON literal) with this Display description. -/
def from_slice_not_json : List Nat → Except JsonError JsonValue :=
  fun _ => Except.error ⟨"expected ident at line 1 column 2"⟩

/-- A concrete caller deserializer at Success type `Nat` that fails on every
body with description "boom": stands for `serde_json::from_slice::<T>` on a
body that does not deserialize into `T`. -/
def decode_nat_fail : List Nat → Except JsonError Nat :=
  fun _ => Except.error ⟨"boom"⟩

/-- A concrete caller deserializer at a Failure type carrying a description,
failing on every body with description "boom". -/
def decode_err_fail : List Nat → Except JsonError JsonError :=
  fun _ => Except.error ⟨"boom"⟩

/-- A lawful `From<serde_json::Error>` conversion for a caller Failure type
that does not preserve the error unchanged: it tags the description. -/
def wrap_err : JsonError → JsonError :=
  fun e => ⟨"converted: " ++ e.msg⟩

/-- A concrete caller deserializer at Success type `Nat` that decodes every
body to the value 7. -/
def decode_nat_ok : List Nat → Except JsonError Nat :=
  fun _ => Except.ok 7

/-- A concrete caller deserializer at a Failure type that decodes every body
to a fixed payload. -/
def decode_err_ok : List Nat → Except JsonError JsonError :=
  fun _ => Except.ok ⟨"payload"⟩

/-- Closed form of the capture operation: escalation outcome first (consulted
only for 5xx statuses), then body retrieval, then construction with the
status-derived disposition. -/
theorem try_from_response_eq (status : Nat) (bytesR : Except TransportError (List Nat))
    (efsr : Except TransportError Unit) :
    TypedResponse.try_from_response ⟨status, bytesR, efsr⟩ =
      match (if is_server_error status then efsr else Except.ok ()) with
      | Except.error e => Except.error e
      | Except.ok _ =>
        match bytesR with
        | Except.error e => Except.error e
        | Except.ok body =>
          Except.ok ⟨body, if is_success status then Disposition.success
            else Disposition.failure⟩ := by
  simp only [TypedResponse.try_from_response]
  cases is_success status <;> rfl

/-- If a byte sequence is not valid UTF-8, its lossy decoding contains the
replacement character: the decoder substitutes U+FFFD at ill-formed positions. -/
theorem utf8_lossy_replaces_invalid (l : List Nat) (h : utf8_valid l = false) :
    replacement_char ∈ utf8_lossy_chars l := by
  induction l using utf8_lossy_chars.induct with
  | case1 => simp [utf8_valid] at h
  | case2 b rest ch n hstep ih =>
    rw [utf8_valid] at h
    rw [utf8_lossy_chars]
    simp [hstep] at h ⊢
    exact Or.inr (ih h)
  | case3 b rest n hstep ih =>
    rw [utf8_lossy_chars]
    simp [hstep]

/-- C1: the claim states that `into_json` on a non-JSON body yields a
single-field object holding the parse-error message, placed in the channel
matching the disposition (`Ok` for Success). The code instead routes every
parse failure to the `Err` channel — the `?` operator early-returns the
mapped error — and builds a bare JSON string, since
`json! { e.to_string() }` uses braces only as macro delimiters. This theorem
evaluates the code at the failing input (Success disposition, body
"not json"): the result is `Err` of a JSON string, contradicting the
method's own documentation, which promises an object routed by status. -/
theorem into_json_parse_failure_behavior :
    TypedResponse.into_json from_slice_not_json ⟨not_json_body, Disposition.success⟩ =
      Except.error (JsonValue.str "expected ident at line 1 column 2") := rfl

/-- C2 counterexample: the claim says the error surfaced on the success path
is the deserialization error itself. With a lawful Failure type whose
`From<serde_json::Error>` conversion tags the description, the surfaced value
is the converted error, different from the raw deserialization error. -/
theorem into_result_success_path_raw_error_refuted :
    TypedResponse.into_result decode_nat_fail decode_err_fail wrap_err
        ⟨[], Disposition.success⟩ = Except.error ⟨"converted: boom"⟩ ∧
    (Except.error (⟨"converted: boom"⟩ : JsonError) : Except JsonError Nat) ≠
      Except.error ⟨"boom"⟩ := by
  constructor
  · rfl
  · simp [JsonError.mk.injEq]

/-- C2 as amended: for every captured response with Success disposition whose
body fails to deserialize into the caller's Success type, `into_result` fails,
returning `Err(Failure::from(deserialization error))` — the deserialization
error converted into the Failure type through its required conversion, exactly
as on the failure path — rather than the raw deserialization error itself. -/
theorem into_result_success_path_error_converted (T E : Type)
    (from_slice_t : List Nat → Except JsonError T)
    (from_slice_e : List Nat → Except JsonError E)
    (e_from : JsonError → E) (body : List Nat) (e : JsonError)
    (h : from_slice_t body = Except.error e) :
    TypedResponse.into_result from_slice_t from_slice_e e_from
      ⟨body, Disposition.success⟩ = Except.error (e_from e) := by
  simp [TypedResponse.into_result, h]

/-- Witness for the amended C2 at a concrete instantiation. -/
theorem into_result_success_path_error_converted_witness :
    TypedResponse.into_result decode_nat_fail decode_err_fail wrap_err
      ⟨[], Disposition.success⟩ = Except.error (wrap_err ⟨"boom"⟩) :=
  into_result_success_path_error_converted Nat JsonError decode_nat_fail
    decode_err_fail wrap_err [] ⟨"boom"⟩ rfl

/-- C3: for every successfully captured response, the stored disposition is
Success iff the HTTP status code at capture time was in the 2xx range, and it
is a function of the status code alone — never derived from the body. -/
theorem captured_disposition_iff_2xx (resp : Response) (tr : TypedResponse)
    (h : TypedResponse.try_from_response resp = Except.ok tr) :
    (tr.result = Disposition.success ↔ (200 ≤ resp.status ∧ resp.status < 300)) ∧
    tr.result = (if is_success resp.status then Disposition.success
      else Disposition.failure) := by
  obtain ⟨status, bytesR, efsr⟩ := resp
  rw [try_from_response_eq] at h
  cases hesc : (if is_server_error status then efsr else Except.ok ()) <;>
    simp [hesc] at h
  cases bytesR with
  | error e => simp at h
  | ok body =>
    simp at h
    subst h
    by_cases hs : is_success status <;> simp [hs, is_success] at *

/-- Witness for C3 at status 200. -/
theorem captured_disposition_iff_2xx_witness :
    ((⟨[49], Disposition.success⟩ : TypedResponse).result = Disposition.success ↔
      (200 ≤ (200 : Nat) ∧ (200 : Nat) < 300)) ∧
    (⟨[49], Disposition.success⟩ : TypedResponse).result =
      (if is_success 200 then Disposition.success else Disposition.failure) :=
  captured_disposition_iff_2xx ⟨200, Except.ok [49], Except.ok ()⟩
    ⟨[49], Disposition.success⟩ rfl

/-- C4: for every response with a 5xx status whose escalation check signals a
transport error, capture propagates that error and produces no captured
response; the outcome is the same for every body-retrieval outcome, so body
retrieval is never consulted. -/
theorem server_error_escalation_propagates (resp : Response) (e : TransportError)
    (h5 : is_server_error resp.status = true)
    (hesc : resp.error_for_status_ref = Except.error e) :
    TypedResponse.try_from_response resp = Except.error e ∧
    ∀ br, TypedResponse.try_from_response ⟨resp.status, br, resp.error_for_status_ref⟩ =
      Except.error e := by
  obtain ⟨status, bytesR, efsr⟩ := resp
  simp only at h5 hesc
  subst hesc
  refine ⟨?_, fun br => ?_⟩ <;> rw [try_from_response_eq] <;> simp [h5]

/-- Witness for C4 at status 500. -/
theorem server_error_escalation_propagates_witness :
    TypedResponse.try_from_response ⟨500, Except.ok [49], Except.error ⟨"escalated"⟩⟩ =
      Except.error ⟨"escalated"⟩ :=
  (server_error_escalation_propagates ⟨500, Except.ok [49], Except.error ⟨"escalated"⟩⟩
    ⟨"escalated"⟩ (by decide) rfl).1

/-- C5: for every response whose status is neither 2xx nor 5xx, the capture
operation never consults the escalation check (the outcome is invariant under
replacing it), still retrieves the body, and produces a captured response with
Failure disposition. -/
theorem non_server_failure_not_escalated (resp : Response)
    (hns : is_success resp.status = false)
    (hnse : is_server_error resp.status = false) :
    (∀ efsr, TypedResponse.try_from_response ⟨resp.status, resp.bytes, efsr⟩ =
      TypedResponse.try_from_response resp) ∧
    (∀ body, resp.bytes = Except.ok body →
      TypedResponse.try_from_response resp = Except.ok ⟨body, Disposition.failure⟩) := by
  obtain ⟨status, bytesR, efsr⟩ := resp
  simp only at hns hnse
  constructor
  · intro efsr2
    rw [try_from_response_eq, try_from_response_eq]
    simp [hnse]
  · intro body hb
    simp only at hb
    subst hb
    rw [try_from_response_eq]
    simp [hnse, hns]

/-- Witness for C5 at status 404, with an escalation check that would error. -/
theorem non_server_failure_not_escalated_witness :
    TypedResponse.try_from_response ⟨404, Except.ok [49], Except.error ⟨"ignored"⟩⟩ =
      Except.ok ⟨[49], Disposition.failure⟩ :=
  (non_server_failure_not_escalated ⟨404, Except.ok [49], Except.error ⟨"ignored"⟩⟩
    (by decide) (by decide)).2 [49] rfl

/-- C6: for every captured response with Failure disposition whose body fails
to deserialize into the caller's Failure type, `into_result` returns `Err` of
`Failure::from(deserialization error)` — a value of the Failure type built by
the required conversion, never a raw deserialization error. -/
theorem into_result_failure_path_converted (T E : Type)
    (from_slice_t : List Nat → Except JsonError T)
    (from_slice_e : List Nat → Except JsonError E)
    (e_from : JsonError → E) (body : List Nat) (e : JsonError)
    (h : from_slice_e body = Except.error e) :
    TypedResponse.into_result from_slice_t from_slice_e e_from
      ⟨body, Disposition.failure⟩ = Except.error (e_from e) := by
  simp [TypedResponse.into_result, h]

/-- Witness for C6 at a concrete instantiation. -/
theorem into_result_failure_path_converted_witness :
    TypedResponse.into_result decode_nat_ok decode_err_fail wrap_err
      ⟨[], Disposition.failure⟩ = Except.error (wrap_err ⟨"boom"⟩) :=
  into_result_failure_path_converted Nat JsonError decode_nat_ok
    decode_err_fail wrap_err [] ⟨"boom"⟩ rfl

/-- C7: `into_result` round-trip — with Success disposition and a body that
deserializes into the Success type, the result is `Ok` of the decoded value;
with Failure disposition and a body that deserializes into the Failure type,
the result is `Err` of the decoded value. -/
theorem into_result_roundtrip (T E : Type)
    (from_slice_t : List Nat → Except JsonError T)
    (from_slice_e : List Nat → Except JsonError E)
    (e_from : JsonError → E) (body : List Nat) :
    (∀ v, from_slice_t body = Except.ok v →
      TypedResponse.into_result from_slice_t from_slice_e e_from
        ⟨body, Disposition.success⟩ = Except.ok v) ∧
    (∀ w, from_slice_e body = Except.ok w →
      TypedResponse.into_result from_slice_t from_slice_e e_from
        ⟨body, Disposition.failure⟩ = Except.error w) := by
  constructor <;> intro x hx <;> simp [TypedResponse.into_result, hx]

/-- Witness for C7 at a concrete instantiation. -/
theorem into_result_roundtrip_witness :
    TypedResponse.into_result decode_nat_ok decode_err_ok wrap_err
      ⟨[], Disposition.success⟩ = Except.ok 7 ∧
    TypedResponse.into_result decode_nat_ok decode_err_ok wrap_err
      ⟨[], Disposition.failure⟩ = Except.error ⟨"payload"⟩ :=
  ⟨(into_result_roundtrip Nat JsonError decode_nat_ok decode_err_ok wrap_err []).1 7 rfl,
   (into_result_roundtrip Nat JsonError decode_nat_ok decode_err_ok wrap_err []).2
     ⟨"payload"⟩ rfl⟩

/-- C8: `bytes` returns the raw body for every disposition and cannot fail;
`text` is the total lossy UTF-8 decoding, and on every body that is not valid
UTF-8 its result contains the replacement character instead of an error. -/
theorem bytes_text_total_and_lossy (body : List Nat) (d : Disposition) :
    TypedResponse.bytes ⟨body, d⟩ = body ∧
    TypedResponse.text ⟨body, d⟩ = from_utf8_lossy body ∧
    (utf8_valid body = false →
      replacement_char ∈ (TypedResponse.text ⟨body, d⟩).data) := by
  refine ⟨rfl, rfl, fun h => ?_⟩
  exact utf8_lossy_replaces_invalid body h

/-- Witness for C8 on the invalid body `[0xFF]`. -/
theorem bytes_text_total_and_lossy_witness :
    utf8_valid [0xFF] = false ∧
    replacement_char ∈ (TypedResponse.text ⟨[0xFF], Disposition.success⟩).data :=
  ⟨by simp [utf8_valid, utf8_step],
   (bytes_text_total_and_lossy [0xFF] Disposition.success).2.2
     (by simp [utf8_valid, utf8_step])⟩

/-- C9: the blocking and asynchronous variants implement the same contract —
under the evident correspondence of captured-response records, the two capture
operations agree on every response handle (same disposition, same escalation
and transport-error outcome, same stored body), and all four decode methods
are extensionally equal functions of the captured state. -/
theorem blocking_async_equivalent :
    (∀ resp : Response,
      (blocking.TypedResponse.try_from_response resp).map blockingToAsync =
        TypedResponse.try_from_response resp) ∧
    (∀ r : blocking.TypedResponse,
      blocking.TypedResponse.bytes r = TypedResponse.bytes (blockingToAsync r)) ∧
    (∀ r : blocking.TypedResponse,
      blocking.TypedResponse.text r = TypedResponse.text (blockingToAsync r)) ∧
    (∀ (f : List Nat → Except JsonError JsonValue) (r : blocking.TypedResponse),
      blocking.TypedResponse.into_json f r =
        TypedResponse.into_json f (blockingToAsync r)) ∧
    (∀ (T E : Type) (ft : List Nat → Except JsonError T)
        (fe : List Nat → Except JsonError E)
        (e_from : JsonError → E) (r : blocking.TypedResponse),
      blocking.TypedResponse.into_result ft fe e_from r =
        TypedResponse.into_result ft fe e_from (blockingToAsync r)) := by
  refine ⟨fun resp => ?_, fun r => rfl, fun r => rfl, fun f r => ?_,
    fun T E ft fe e_from r => ?_⟩
  · obtain ⟨status, bytesR, efsr⟩ := resp
    simp only [blocking.TypedResponse.try_from_response, TypedResponse.try_from_response]
    cases is_success status <;>
      cases hesc : (if is_server_error status then efsr else Except.ok ()) <;>
      cases bytesR <;>
      simp [hesc, Except.map, blockingToAsync]
  · obtain ⟨body, result⟩ := r
    cases result <;> cases hf : f body <;>
      simp [blocking.TypedResponse.into_json, TypedResponse.into_json, blockingToAsync, hf]
  · obtain ⟨body, result⟩ := r
    cases result
    · cases hf : ft body <;>
        simp [blocking.TypedResponse.into_result, TypedResponse.into_result,
          blockingToAsync, hf]
    · cases hf : fe body <;>
        simp [blocking.TypedResponse.into_result, TypedResponse.into_result,
          blockingToAsync, hf]

/-- C10: for a response with a 5xx status whose escalation check does not
signal an error, capture does not fail at the escalation step — it retrieves
the body and produces a captured response with Failure disposition. -/
theorem server_error_without_escalation_captures (resp : Response) (body : List Nat)
    (h5 : is_server_error resp.status = true)
    (hok : resp.error_for_status_ref = Except.ok ())
    (hb : resp.bytes = Except.ok body) :
    TypedResponse.try_from_response resp = Except.ok ⟨body, Disposition.failure⟩ := by
  obtain ⟨status, bytesR, efsr⟩ := resp
  simp only at h5 hok hb
  subst hok hb
  rw [try_from_response_eq]
  have hns : is_success status = false := by
    simp [is_success, is_server_error] at *
    omega
  simp [h5, hns]

/-- Witness for C10 at status 503. -/
theorem server_error_without_escalation_captures_witness :
    TypedResponse.try_from_response ⟨503, Except.ok [49], Except.ok ()⟩ =
      Except.ok ⟨[49], Disposition.failure⟩ :=
  server_error_without_escalation_captures ⟨503, Except.ok [49], Except.ok ()⟩ [49]
    (by decide) rfl rfl
